import Mathlib

namespace NetMD

/-!
Verification of `src/netmd-commands.ts` (netmd-js): status decoding,
disc content model construction, and the secure download session lifecycle.

The device-facing `NetMDInterface` is an external collaborator; its reads
are modelled as an oracle record, and the fallibility of its calls during
`download` is modelled as a record of Booleans saying which call throws.
-/

/-! ## Status decoder (`getDeviceStatus`) -/

/-- The operating-state values, including the `unknown` fallback. -/
inductive OperatingStatusType where
  | ready
  | playing
  | fastForward
  | rewind
  | readingTOC
  | unknown
deriving DecidableEq, Repr

/-- The fixed lookup table `OperatingStatus` from the source; `none`
models absence of the key (the `in` check failing). -/
def OperatingStatus (n : Nat) : Option OperatingStatusType :=
  if n = 50687 then some .ready
  else if n = 50037 then some .playing
  else if n = 49983 then some .fastForward
  else if n = 49999 then some .rewind
  else if n = 65315 then some .readingTOC
  else none

/-- The `DeviceStatus` record returned by `getDeviceStatus`. -/
structure DeviceStatus where
  discPresent : Bool
  time : Option (Nat × Nat × Nat)
  track : Option Nat
  state : OperatingStatusType
deriving DecidableEq, Repr

/-- Embedding of `getDeviceStatus`: byte buffers are lists of byte values (out-of-range
reads default to 0), `position` is `none` when the device reports no
position.  Mirrors the source line by line: `operatingStatus` is the
big-endian composition of bytes 4 and 5 of `playbackStatus2`,
`discPresent` checks byte 4 of `status` against `0x40`, the table lookup
falls back to `unknown`, and a `playing` state with no disc present is
normalized to `ready`. -/
def getDeviceStatus (status playbackStatus2 : List Nat) (position : Option (List Nat)) : DeviceStatus :=
  let b1 := playbackStatus2.getD 4 0
  let b2 := playbackStatus2.getD 5 0
  let operatingStatus := (b1 <<< 8) ||| b2
  let track := position.map (fun p => p.getD 0 0)
  let discPresent := status.getD 4 0 == 0x40
  let state := (OperatingStatus operatingStatus).getD .unknown
  let state := if state = .playing ∧ discPresent = false then .ready else state
  let time := position.map (fun p => (p.getD 2 0, p.getD 3 0, p.getD 4 0))
  { discPresent := discPresent, state := state, track := track, time := time }

/-! ## Secure download session manager (`download`) -/

/-- The observable calls `download` makes on the interface and session. -/
inductive Call where
  | sessionKeyForget
  | leaveSecureSession
  | acquire
  | disableNewTrackProtection
  | newSession
  | sessionInit
  | downloadTrack
  | sessionClose
  | release
deriving DecidableEq, Repr

/-- Which call a thrown error originated from. -/
inductive Err where
  | sessionKeyForgetErr
  | leaveSecureSessionErr
  | acquireErr
  | disableNewTrackProtectionErr
  | sessionInitErr
  | downloadTrackErr
  | sessionCloseErr
  | releaseErr
deriving DecidableEq, Repr

/-- An execution environment for one run of `download`: which awaited
calls throw, and the value `downloadTrack` yields on success. -/
structure DownloadBehavior where
  sessionKeyForgetFails : Bool
  leaveSecureSessionFails : Bool
  acquireFails : Bool
  disableNewTrackProtectionFails : Bool
  sessionInitFails : Bool
  downloadTrackFails : Bool
  sessionCloseFails : Bool
  releaseFails : Bool
  downloadTrackResult : Nat × Nat × Nat

/-- What one run of `download` produced: the sequence of calls actually
issued (a failing call is still recorded as issued), and either the
returned triple or the error that propagated to the caller. -/
structure DownloadOutcome where
  trace : List Call
  result : Except Err (Nat × Nat × Nat)

/-- Embedding of `download` from the source, as a trace-producing function of the
behavior of its callees.

The first `try` block covers both `sessionKeyForget` and
`leaveSecureSession`: if the former throws, the latter is never reached,
and either error is swallowed.  `acquire` failure propagates.  The second
`try` block swallows a `disableNewTrackProtection` failure.  Then the
session is constructed and `init`, `downloadTrack`, `close`, `release`
run in sequence with no surrounding handler, so a failure of any of them
propagates immediately and the remaining calls are not issued. -/
def download (b : DownloadBehavior) : DownloadOutcome :=
  let trace := [Call.sessionKeyForget]
  let trace := if b.sessionKeyForgetFails then trace else trace ++ [Call.leaveSecureSession]
  let trace := trace ++ [Call.acquire]
  if b.acquireFails then { trace := trace, result := .error .acquireErr } else
  let trace := trace ++ [Call.disableNewTrackProtection]
  let trace := trace ++ [Call.newSession, Call.sessionInit]
  if b.sessionInitFails then { trace := trace, result := .error .sessionInitErr } else
  let trace := trace ++ [Call.downloadTrack]
  if b.downloadTrackFails then { trace := trace, result := .error .downloadTrackErr } else
  let trace := trace ++ [Call.sessionClose]
  if b.sessionCloseFails then { trace := trace, result := .error .sessionCloseErr } else
  let trace := trace ++ [Call.release]
  if b.releaseFails then { trace := trace, result := .error .releaseErr } else
  { trace := trace, result := .ok b.downloadTrackResult }

/-- The behavior in which every call succeeds. -/
def allOk : DownloadBehavior where
  sessionKeyForgetFails := false
  leaveSecureSessionFails := false
  acquireFails := false
  disableNewTrackProtectionFails := false
  sessionInitFails := false
  downloadTrackFails := false
  sessionCloseFails := false
  releaseFails := false
  downloadTrackResult := (7, 11, 13)

/-- The behavior in which only `session.init` fails. -/
def initFailB : DownloadBehavior := { allOk with sessionInitFails := true }

/-- The behavior in which only `acquire` fails. -/
def acquireFailB : DownloadBehavior := { allOk with acquireFails := true }

/-- The behavior in which only `sessionKeyForget` fails. -/
def keyForgetFailB : DownloadBehavior := { allOk with sessionKeyForgetFails := true }

/-- The behavior in which both best-effort steps fail. -/
def bestEffortFailB : DownloadBehavior :=
  { allOk with sessionKeyForgetFails := true, disableNewTrackProtectionFails := true }

/-! ## Content model (`Track`, `Group`, `Disc`, `listContent`) -/

/-- A track of the disc snapshot. -/
structure Track where
  index : Nat
  title : Option String
  duration : Nat
  channel : Nat
  encoding : Nat
  «protected» : Nat
deriving DecidableEq, Repr

/-- A named ordering container of tracks. -/
structure Group where
  index : Nat
  title : Option String
  tracks : List Track
deriving DecidableEq, Repr

/-- The disc snapshot assembled by `listContent`. -/
structure Disc where
  title : String
  writable : Bool
  writeProtected : Bool
  used : Nat
  left : Nat
  total : Nat
  trackCount : Nat
  groups : List Group
deriving DecidableEq, Repr

/-- Embedding of `countTracksInDisc`: a fold over the groups summing per-group track
counts, as in the source's `reduce`. -/
def countTracksInDisc (disc : Disc) : Nat :=
  disc.groups.foldl (fun acc g => acc + g.tracks.length) 0

/-- Embedding of `getTracks`: flattens the groups' track lists in group order then
in-group order (the source pushes each group's tracks in order onto one
accumulating list). -/
def getTracks (disc : Disc) : List Track :=
  disc.groups.foldl (fun tracks g => tracks ++ g.tracks) []

/-- Modelled from the spec: `timeToFrames` lives in `src/utils.ts`,
which is not part of the provided source; the spec fixes the conversion
as frames = minutes×60×75 + seconds×75 + frames-within-second, with the
medium's fixed 75-frames-per-second clock.  A native time value is the
triple (minute, second, frame). -/
def timeToFrames : Nat × Nat × Nat → Nat
  | (minute, second, frame) => minute * 60 * 75 + second * 75 + frame

/-- The `DiscFlag.writable` bit mask.  Modelled from the spec: the
`DiscFlag` enum lives in `netmd-interface.ts`, which is not part of the
provided source; the claims do not depend on the mask values. -/
def DiscFlagWritable : Nat := 0x10

/-- The `DiscFlag.writeProtected` bit mask.  Modelled from the spec: the
`DiscFlag` enum lives in `netmd-interface.ts`, which is not part of the
provided source; the claims do not depend on the mask values. -/
def DiscFlagWriteProtected : Nat := 0x40

/-- The read-only answers of the protocol command interface consumed by
`listContent`: disc-level reads, the group/track-list structure, and the
per-track reads (as functions of the device track index). -/
structure MDInterfaceData where
  discFlags : Nat
  discTitle : String
  discUsed : Nat × Nat × Nat
  discTotal : Nat × Nat × Nat
  discLeft : Nat × Nat × Nat
  trackCount : Nat
  trackGroupList : List (Option String × List Nat)
  trackTitle : Nat → Option String
  trackEncoding : Nat → Nat × Nat
  trackLength : Nat → Nat × Nat × Nat
  trackFlags : Nat → Nat

/-- The per-track assembly of `listContent`'s inner loop: four reads
keyed by the device track index, with the length converted to frames. -/
def buildTrack (d : MDInterfaceData) (track : Nat) : Track where
  index := track
  title := d.trackTitle track
  duration := timeToFrames (d.trackLength track)
  channel := (d.trackEncoding track).2
  encoding := (d.trackEncoding track).1
  «protected» := d.trackFlags track

/-- One iteration of `listContent`'s outer loop: the group's index is
its position in the track-group list, and its tracks are assembled from
the group's track indices in order. -/
def buildGroup (d : MDInterfaceData) (groupIndex : Nat) (g : Option String × List Nat) : Group where
  index := groupIndex
  title := g.1
  tracks := g.2.map (buildTrack d)

/-- Embedding of `listContent` from the source: disc-level reads (note the device
returns the capacity triple in the order used, total, left), frame
conversion of the capacities, then the group/track walk.  The await-laden
loops become pure maps over the oracle's answers. -/
def listContent (d : MDInterfaceData) : Disc where
  title := d.discTitle
  writable := d.discFlags &&& DiscFlagWritable != 0
  writeProtected := d.discFlags &&& DiscFlagWriteProtected != 0
  used := timeToFrames d.discUsed
  left := timeToFrames d.discLeft
  total := timeToFrames d.discTotal
  trackCount := d.trackCount
  groups := d.trackGroupList.enum.map (fun p => buildGroup d p.1 p.2)

/-- The device track indices as laid out by the group/track-list
structure, flattened in group order then in-group order. -/
def deviceTrackIndices (d : MDInterfaceData) : List Nat :=
  (d.trackGroupList.map Prod.snd).flatten

/-- The track indices of a disc snapshot, flattened across its groups. -/
def discTrackIndices (disc : Disc) : List Nat :=
  (getTracks disc).map Track.index

/-- Modelled from the spec: the device-side guarantee (maintained by
`getTrackGroupList` and `getTrackCount` in `netmd-interface.ts`, which is
not part of the provided source) that the group structure partitions the
device track indices — together they are exactly the indices
0, …, trackCount−1, with no duplicates and no gaps. -/
@[reducible] def DeviceConsistent (d : MDInterfaceData) : Prop :=
  (deviceTrackIndices d).Perm (List.range d.trackCount)

/-- The spec's worked example: a track-group list `[("A",[0,1]), ("B",[2])]`. -/
def exIface : MDInterfaceData where
  discFlags := 0x10
  discTitle := "Demo"
  discUsed := (0, 1, 2)
  discTotal := (2, 0, 0)
  discLeft := (1, 58, 73)
  trackCount := 3
  trackGroupList := [(some "A", [0, 1]), (some "B", [2])]
  trackTitle := fun _ => none
  trackEncoding := fun _ => (0, 0)
  trackLength := fun _ => (1, 2, 10)
  trackFlags := fun _ => 0

/-! ## Helper lemmas -/

/-- The state field of `getDeviceStatus`, fully characterized: the table
lookup on the big-endian byte pair, except that the `playing` entry is
demoted to `ready` when `discPresent` is false. -/
lemma getDeviceStatus_state (status playbackStatus2 : List Nat) (position : Option (List Nat)) :
    (getDeviceStatus status playbackStatus2 position).state =
      (let os := ((playbackStatus2.getD 4 0) <<< 8) ||| playbackStatus2.getD 5 0
      if os = 50687 then .ready
      else if os = 50037 then
        (if status.getD 4 0 = 0x40 then .playing else .ready)
      else if os = 49983 then .fastForward
      else if os = 49999 then .rewind
      else if os = 65315 then .readingTOC
      else .unknown) := by
  simp only [getDeviceStatus, OperatingStatus]
  split_ifs <;> simp_all

/-- The `discPresent` field of `getDeviceStatus` is the sentinel check on
byte 4 of the status buffer. -/
lemma getDeviceStatus_discPresent (status playbackStatus2 : List Nat)
    (position : Option (List Nat)) :
    (getDeviceStatus status playbackStatus2 position).discPresent =
      (status.getD 4 0 == 0x40) := by
  simp [getDeviceStatus]

/-! ## Claims about the status decoder -/

/-- C4 (counterexample): the claim says the resulting state is `playing`
whenever the big-endian value of playback-status bytes 4 and 5 is 50037,
for every input.  With a status buffer whose byte 4 is not `0x40` (no
disc present) and playback-status bytes encoding 50037, the decoder
returns `ready`, not `playing`. -/
theorem c4_state_table_counterexample :
    ((([0, 0, 0, 0, 195, 117] : List Nat).getD 4 0 <<< 8) |||
        ([0, 0, 0, 0, 195, 117] : List Nat).getD 5 0) = 50037
    ∧ (getDeviceStatus [0, 0, 0, 0, 0] [0, 0, 0, 0, 195, 117] none).state
        ≠ OperatingStatusType.playing := by
  decide

/-- C4 (amended): for every input, the operating status is the
big-endian 16-bit value composed from bytes 4 and 5 of the
playback-status buffer, and the resulting state is exactly
50687→ready, 50037→playing when a disc is present (ready otherwise),
49983→fastForward, 49999→rewind, 65315→readingTOC, and any other value
(such as 12345) → unknown. -/
theorem c4_state_table (status playbackStatus2 : List Nat) (position : Option (List Nat)) :
    (getDeviceStatus status playbackStatus2 position).state =
      (let os := ((playbackStatus2.getD 4 0) <<< 8) ||| playbackStatus2.getD 5 0
      if os = 50687 then .ready
      else if os = 50037 then
        (if status.getD 4 0 = 0x40 then .playing else .ready)
      else if os = 49983 then .fastForward
      else if os = 49999 then .rewind
      else if os = 65315 then .readingTOC
      else .unknown) :=
  getDeviceStatus_state status playbackStatus2 position

/-- C5: `discPresent` is true iff byte 4 of the status buffer equals
`0x40`; `discPresent = false` implies the state is not `playing`; and
when the table lookup yields `playing` but the disc is absent, the state
is normalized to `ready`. -/
theorem c5_playing_normalization (status playbackStatus2 : List Nat)
    (position : Option (List Nat)) :
    ((getDeviceStatus status playbackStatus2 position).discPresent =
        (status.getD 4 0 == 0x40))
    ∧ ((getDeviceStatus status playbackStatus2 position).discPresent = false →
        (getDeviceStatus status playbackStatus2 position).state ≠
          OperatingStatusType.playing)
    ∧ (OperatingStatus (((playbackStatus2.getD 4 0) <<< 8) ||| playbackStatus2.getD 5 0) =
          some OperatingStatusType.playing →
        (getDeviceStatus status playbackStatus2 position).discPresent = false →
        (getDeviceStatus status playbackStatus2 position).state =
          OperatingStatusType.ready) := by
  refine ⟨getDeviceStatus_discPresent status playbackStatus2 position, ?_, ?_⟩ <;>
    rw [getDeviceStatus_state, getDeviceStatus_discPresent] <;>
    simp only [OperatingStatus] <;>
    split_ifs <;> simp_all

/-- C5 witness: at a concrete input with no disc and a `playing` code. -/
theorem c5_playing_normalization_witness :
    (getDeviceStatus [0, 0, 0, 0, 0] [0, 0, 0, 0, 195, 117] none).state =
      OperatingStatusType.ready :=
  (c5_playing_normalization [0, 0, 0, 0, 0] [0, 0, 0, 0, 195, 117] none).2.2
    (by decide) (by decide)

/-- From `a + 1 = b` conclude `a < b`; used to settle trace-order goals
by pure computation. -/
lemma lt_of_succ_eq {a b : Nat} (h : a + 1 = b) : a < b := h ▸ Nat.lt_succ_self a

/-! ## Claims about `download` -/

/-- C1 (counterexample): with `acquire` succeeding and `session.init`
failing, neither `session.close` nor `release` is ever invoked (the
source has no `finally`-style handler around steps 4–6), so they are not
"each invoked exactly once before the operation ends". -/
theorem c1_teardown_counterexample :
    (download initFailB).trace.count Call.sessionClose = 0
    ∧ (download initFailB).trace.count Call.release = 0
    ∧ (download initFailB).result =
        Except.error Err.sessionInitErr :=
  ⟨rfl, rfl, rfl⟩

/-- C1 (amended): once `acquire` succeeds, `session.close` and `release`
are each invoked exactly once — with the session closed before exclusive
control is released — only on executions in which `session.init`,
`downloadTrack` and `session.close` all succeed; when `session.init` or
`downloadTrack` fails, that original error is the one surfaced to the
caller, but `session.close` and `release` are not invoked at all. -/
theorem c1_teardown (b : DownloadBehavior) (hacq : b.acquireFails = false) :
    (b.sessionInitFails = false → b.downloadTrackFails = false →
      b.sessionCloseFails = false →
      (download b).trace.count Call.sessionClose = 1
      ∧ (download b).trace.count Call.release = 1
      ∧ (download b).trace.indexOf Call.sessionClose <
          (download b).trace.indexOf Call.release)
    ∧ (b.sessionInitFails = true →
      (download b).trace.count Call.sessionClose = 0
      ∧ (download b).trace.count Call.release = 0
      ∧ (download b).result = Except.error Err.sessionInitErr)
    ∧ (b.sessionInitFails = false → b.downloadTrackFails = true →
      (download b).trace.count Call.sessionClose = 0
      ∧ (download b).trace.count Call.release = 0
      ∧ (download b).result = Except.error Err.downloadTrackErr) := by
  obtain ⟨skf, lss, acq, dntp, init, dlt, cls, rel, res⟩ := b
  have ha : acq = false := hacq
  subst ha
  refine ⟨fun h1 h2 h3 => ?_, fun h1 => ?_, fun h1 h2 => ?_⟩
  · have e1 : init = false := h1
    have e2 : dlt = false := h2
    have e3 : cls = false := h3
    subst e1; subst e2; subst e3
    cases skf <;> cases rel <;> exact ⟨rfl, rfl, lt_of_succ_eq rfl⟩
  · have e1 : init = true := h1
    subst e1
    cases skf <;> exact ⟨rfl, rfl, rfl⟩
  · have e1 : init = false := h1
    have e2 : dlt = true := h2
    subst e1; subst e2
    cases skf <;> exact ⟨rfl, rfl, rfl⟩

/-- C1 witness: on the all-success behavior, close and release each
happen once, in that order. -/
theorem c1_teardown_witness :
    (download allOk).trace.count Call.sessionClose = 1
    ∧ (download allOk).trace.count Call.release = 1
    ∧ (download allOk).trace.indexOf Call.sessionClose <
        (download allOk).trace.indexOf Call.release :=
  (c1_teardown allOk rfl).1 rfl rfl rfl

/-- C2: failures of the stale-session cleanup (`sessionKeyForget` /
`leaveSecureSession`) and of `disableNewTrackProtection` are swallowed:
`acquire` is always reached, the secure session is still constructed and
initialized whenever `acquire` succeeds, and no such failure is ever the
error reported to the caller. -/
theorem c2_best_effort_swallowed (b : DownloadBehavior) :
    Call.acquire ∈ (download b).trace
    ∧ (b.acquireFails = false →
        Call.newSession ∈ (download b).trace ∧ Call.sessionInit ∈ (download b).trace)
    ∧ (download b).result ≠ Except.error Err.sessionKeyForgetErr
    ∧ (download b).result ≠ Except.error Err.leaveSecureSessionErr
    ∧ (download b).result ≠ Except.error Err.disableNewTrackProtectionErr := by
  obtain ⟨skf, lss, acq, dntp, init, dlt, cls, rel, res⟩ := b
  refine ⟨?_, fun h => ?_, fun hr => ?_, fun hr => ?_, fun hr => ?_⟩
  · cases skf <;> cases acq <;> cases init <;> cases dlt <;> cases cls <;> cases rel <;>
      first
      | exact List.Mem.tail _ (List.Mem.head _)
      | exact List.Mem.tail _ (List.Mem.tail _ (List.Mem.head _))
  · have ha : acq = false := h
    subst ha
    cases skf <;> cases init <;> cases dlt <;> cases cls <;> cases rel <;>
      first
      | exact ⟨List.Mem.tail _ (List.Mem.tail _ (List.Mem.tail _ (List.Mem.head _))),
          List.Mem.tail _ (List.Mem.tail _ (List.Mem.tail _ (List.Mem.tail _ (List.Mem.head _))))⟩
      | exact ⟨List.Mem.tail _ (List.Mem.tail _ (List.Mem.tail _ (List.Mem.tail _ (List.Mem.head _)))),
          List.Mem.tail _ (List.Mem.tail _ (List.Mem.tail _ (List.Mem.tail _ (List.Mem.tail _ (List.Mem.head _)))))⟩
  all_goals
    cases skf <;> cases acq <;> cases init <;> cases dlt <;> cases cls <;> cases rel <;>
      first
      | exact Except.noConfusion hr
      | exact Err.noConfusion (Except.error.inj hr)

/-- C2 witness: a behavior in which every best-effort step fails still
reaches `acquire` and `session.init`, and no swallowed error surfaces. -/
theorem c2_best_effort_swallowed_witness :
    Call.acquire ∈ (download bestEffortFailB).trace
    ∧ Call.sessionInit ∈ (download bestEffortFailB).trace :=
  ⟨(c2_best_effort_swallowed bestEffortFailB).1,
    ((c2_best_effort_swallowed bestEffortFailB).2.1 rfl).2⟩

/-- C3: when `acquire` fails, its error is the one surfaced, and no
session is constructed or initialized, nothing is transferred, and
neither `session.close` nor `release` is invoked. -/
theorem c3_acquire_failure_aborts (b : DownloadBehavior) (hacq : b.acquireFails = true) :
    (download b).result = Except.error Err.acquireErr
    ∧ (download b).trace.count Call.newSession = 0
    ∧ (download b).trace.count Call.sessionInit = 0
    ∧ (download b).trace.count Call.downloadTrack = 0
    ∧ (download b).trace.count Call.sessionClose = 0
    ∧ (download b).trace.count Call.release = 0 := by
  obtain ⟨skf, lss, acq, dntp, init, dlt, cls, rel, res⟩ := b
  have ha : acq = true := hacq
  subst ha
  cases skf <;> exact ⟨rfl, rfl, rfl, rfl, rfl, rfl⟩

/-- C3 witness: at the concrete behavior where only `acquire` fails. -/
theorem c3_acquire_failure_aborts_witness :
    (download acquireFailB).result =
        Except.error Err.acquireErr
    ∧ (download acquireFailB).trace.count Call.release = 0 :=
  ⟨(c3_acquire_failure_aborts acquireFailB rfl).1,
    (c3_acquire_failure_aborts acquireFailB rfl).2.2.2.2.2⟩

/-- C10: `sessionKeyForget` and `leaveSecureSession` sit in one `try`
block, so when `sessionKeyForget` fails, `leaveSecureSession` is never
invoked at all. -/
theorem c10_cleanup_single_block (b : DownloadBehavior)
    (h : b.sessionKeyForgetFails = true) :
    (download b).trace.count Call.leaveSecureSession = 0
    ∧ Call.leaveSecureSession ∉ (download b).trace := by
  obtain ⟨skf, lss, acq, dntp, init, dlt, cls, rel, res⟩ := b
  have hs : skf = true := h
  subst hs
  cases acq <;> cases init <;> cases dlt <;> cases cls <;> cases rel <;>
    refine ⟨rfl, List.count_eq_zero.mp ?_⟩ <;> rfl

/-- C10 witness: at the concrete behavior where only `sessionKeyForget`
fails. -/
theorem c10_cleanup_single_block_witness :
    Call.leaveSecureSession ∉
      (download keyForgetFailB).trace :=
  (c10_cleanup_single_block keyForgetFailB rfl).2

/-! ## Claims about the content model -/

/-- The accumulating fold of `getTracks`, related to a flat
concatenation. -/
lemma getTracks_foldl (gs : List Group) (acc : List Track) :
    gs.foldl (fun ts g => ts ++ g.tracks) acc = acc ++ (gs.map Group.tracks).flatten := by
  induction gs generalizing acc with
  | nil => simp
  | cons g gs ih => simp [ih]

/-- The accumulating fold of `countTracksInDisc`, related to the flat
concatenation's length. -/
lemma countTracks_foldl (gs : List Group) (n : Nat) :
    gs.foldl (fun acc g => acc + g.tracks.length) n =
      n + ((gs.map Group.tracks).flatten).length := by
  induction gs generalizing n with
  | nil => simp
  | cons g gs ih => simp [ih]; omega

/-- The function `getTracks` is the concatenation of the groups' track lists. -/
lemma getTracks_eq (d : Disc) : getTracks d = (d.groups.map Group.tracks).flatten := by
  simp [getTracks, getTracks_foldl]

/-- The group index assigned by `listContent` does not influence a
group's track list. -/
lemma enumFrom_map_tracks (d : MDInterfaceData) (l : List (Option String × List Nat)) :
    ∀ k : Nat,
      ((List.enumFrom k l).map (fun p => buildGroup d p.1 p.2)).map Group.tracks
        = l.map (fun g => g.2.map (buildTrack d)) := by
  induction l with
  | nil => intro k; rfl
  | cons g gs ih => intro k; simp only [List.enumFrom, List.map_cons]; rw [ih]; rfl

/-- The track lists of the groups built by `listContent` are the
oracle's per-group track indices, mapped through `buildTrack`. -/
lemma listContent_groups_tracks (d : MDInterfaceData) :
    ((listContent d).groups).map Group.tracks
      = d.trackGroupList.map (fun g => g.2.map (buildTrack d)) :=
  enumFrom_map_tracks d d.trackGroupList 0

/-- Mapping a track index through `buildTrack` and back is the
identity. -/
lemma map_index_buildTrack (d : MDInterfaceData) (xs : List Nat) :
    (xs.map (buildTrack d)).map Track.index = xs := by
  induction xs with
  | nil => rfl
  | cons x xs ih => simp only [List.map_cons, ih, buildTrack]

/-- The builder `listContent` neither drops, duplicates nor renumbers tracks: the
flattened indices of the disc snapshot are the device's flattened
group/track-list indices. -/
lemma discTrackIndices_eq (d : MDInterfaceData) :
    discTrackIndices (listContent d) = deviceTrackIndices d := by
  unfold discTrackIndices deviceTrackIndices
  rw [getTracks_eq, listContent_groups_tracks, List.map_flatten, List.map_map]
  congr 1
  have h : (List.map Track.index ∘ fun g : Option String × List Nat =>
      List.map (buildTrack d) g.2) = Prod.snd := by
    funext g
    exact map_index_buildTrack d g.2
  rw [h]

/-- C6: `countTracksInDisc` always agrees with the length of
`getTracks`. -/
theorem c6_count_tracks (d : Disc) : countTracksInDisc d = (getTracks d).length := by
  rw [countTracksInDisc, getTracks_eq, countTracks_foldl]
  simp

/-- C6 witness: evaluated on the example disc. -/
theorem c6_count_tracks_witness :
    countTracksInDisc (listContent exIface) = (getTracks (listContent exIface)).length :=
  c6_count_tracks (listContent exIface)

/-- C7: `getTracks` concatenates the groups' track lists in group order
then in-group order; on the track-group list `[("A",[0,1]), ("B",[2])]`
the flattened track indices are `[0,1,2]` and the group indices are
`[0,1]`, matching the groups' sequence positions. -/
theorem c7_flatten_order :
    (∀ d : Disc, getTracks d = (d.groups.map Group.tracks).flatten)
    ∧ (getTracks (listContent exIface)).map Track.index = [0, 1, 2]
    ∧ (listContent exIface).groups.map Group.index = [0, 1] :=
  ⟨getTracks_eq, rfl, rfl⟩

/-- C8: whenever the device's group/track-list structure partitions the
track indices `0, …, trackCount−1`, the disc snapshot's groups together
carry exactly those indices — no duplicates, no gaps, and as many
entries as the snapshot's `trackCount`. -/
theorem c8_track_partition (d : MDInterfaceData) (h : DeviceConsistent d) :
    (discTrackIndices (listContent d)).Nodup
    ∧ (∀ i, i ∈ discTrackIndices (listContent d) ↔ i < (listContent d).trackCount)
    ∧ (discTrackIndices (listContent d)).length = (listContent d).trackCount := by
  have he : discTrackIndices (listContent d) = deviceTrackIndices d := discTrackIndices_eq d
  have hc : (listContent d).trackCount = d.trackCount := rfl
  rw [he, hc]
  refine ⟨h.nodup_iff.mpr (List.nodup_range _), fun i => ?_, ?_⟩
  · rw [h.mem_iff, List.mem_range]
  · rw [h.length_eq, List.length_range]

/-- C8 witness: the example oracle is consistent and the conclusion
evaluates on it. -/
theorem c8_track_partition_witness :
    DeviceConsistent exIface
    ∧ (discTrackIndices (listContent exIface)).length = (listContent exIface).trackCount :=
  ⟨by decide, (c8_track_partition exIface (by decide)).2.2⟩

/-- C9: the three disc capacities and every track duration produced by
`listContent` go through `timeToFrames`, and 1 minute, 2 seconds,
10 frames convert to 4660 frames. -/
theorem c9_frame_conversion :
    (∀ d : MDInterfaceData,
      (listContent d).used = timeToFrames d.discUsed
      ∧ (listContent d).left = timeToFrames d.discLeft
      ∧ (listContent d).total = timeToFrames d.discTotal
      ∧ ∀ t ∈ getTracks (listContent d), t.duration = timeToFrames (d.trackLength t.index))
    ∧ timeToFrames (1, 2, 10) = 4660 := by
  refine ⟨fun d => ⟨rfl, rfl, rfl, fun t ht => ?_⟩, rfl⟩
  rw [getTracks_eq, listContent_groups_tracks] at ht
  rw [List.mem_flatten] at ht
  obtain ⟨l, hl, htl⟩ := ht
  rw [List.mem_map] at hl
  obtain ⟨g, _, rfl⟩ := hl
  rw [List.mem_map] at htl
  obtain ⟨i, _, rfl⟩ := htl
  rfl

/-- C9 witness: evaluated on the example oracle, whose every track
length is 1 minute, 2 seconds, 10 frames. -/
theorem c9_frame_conversion_witness :
    (listContent exIface).used = timeToFrames exIface.discUsed
    ∧ (buildTrack exIface 0).duration =
        timeToFrames (exIface.trackLength (buildTrack exIface 0).index) :=
  ⟨(c9_frame_conversion.1 exIface).1,
    (c9_frame_conversion.1 exIface).2.2.2 (buildTrack exIface 0) (by decide)⟩

/-- C4 witness: a concrete buffer pair decoding to `ready`. -/
theorem c4_state_table_witness :
    (getDeviceStatus [0, 0, 0, 0, 0x40] [0, 0, 0, 0, 197, 255] none).state =
      OperatingStatusType.ready :=
  (c4_state_table [0, 0, 0, 0, 0x40] [0, 0, 0, 0, 197, 255] none).trans (by decide)

end NetMD
